import Mathlib

/-
Formal model of `generate_map.py` (repository carteau): the source resolver
`fetch_regions_geojson`, the metadata enricher `enrich_regions_metadata`,
the density bucket colouring `density_color` of `build_map`, and the
click-navigation path emitted by `build_map`.

Python dicts are modelled as association lists with first-occurrence lookup
and in-place replacement on assignment; Python numbers are modelled as
integers and rationals (the values handled by this program are exact
decimals, far from any binary-float artefact); raised exceptions are
modelled as explicit error values.
-/

/-- A Python property value as it occurs in a feature's property bag:
a string, an int, a float (modelled as a rational), or None. -/
inductive PVal where
  | s (v : String)
  | i (v : ℤ)
  | q (v : ℚ)
  | null
deriving DecidableEq, Repr

/-- Python truthiness of a property value: empty string, zero and None are
falsy, everything else is truthy. -/
def PVal.truthy : PVal → Bool
  | .s v => v != ""
  | .i v => v != 0
  | .q v => v != 0
  | .null => false

/-- Lookup of a key in an association list modelling a Python dict
(`d.get(key)`: the first matching entry wins). -/
def alookup {α : Type} : List (String × α) → String → Option α
  | [], _ => none
  | (k, v) :: rest, key => if k = key then some v else alookup rest key

/-- `d[key] = v` on a Python dict modelled as an association list: replace
the first entry with that key in place, or append a new entry. -/
def aset {α : Type} : List (String × α) → String → α → List (String × α)
  | [], key, v => [(key, v)]
  | (k, w) :: rest, key, v =>
      if k = key then (key, v) :: rest else (k, w) :: aset rest key v

/-- A feature's property bag, as read by the enricher. -/
abbrev Props := List (String × PVal)

/-- A GeoJSON feature as the enricher sees it: only the property bag
matters (geometry is never read or written by the enricher). `none`
models a feature whose `properties` key is absent or None. -/
structure Feature where
  properties : Option Props
deriving DecidableEq, Repr

/-- A feature collection document: the `features` list of the dict the
resolver returned. -/
structure GeoJsonDoc where
  features : List Feature
deriving DecidableEq, Repr

/-- One row of the fixed metadata table of `enrich_regions_metadata`
(populations are ints, surfaces are ints in the source literal and are
converted to float on use). -/
structure RegionMeta where
  population : ℤ
  surface_km2 : ℤ
deriving DecidableEq, Repr

/-- An apostrophe, kept out of string literals. -/
def apos : String := String.singleton (Char.ofNat 39)

/-- The fixed metadata table `mapping` of `enrich_regions_metadata`,
in source order. -/
def mapping : List (String × RegionMeta) :=
  [("Île-de-France", ⟨12271794, 12012⟩),
   ("Auvergne-Rhône-Alpes", ⟨8078271, 69711⟩),
   ("Nouvelle-Aquitaine", ⟨6073000, 84036⟩),
   ("Occitanie", ⟨5999000, 72724⟩),
   ("Grand Est", ⟨5549000, 57441⟩),
   ("Hauts-de-France", ⟨6006000, 31813⟩),
   ("Provence-Alpes-Côte d" ++ apos ++ "Azur", ⟨5098000, 31400⟩),
   ("Pays de la Loire", ⟨3883000, 32082⟩),
   ("Bretagne", ⟨3420000, 27208⟩),
   ("Centre-Val de Loire", ⟨2573000, 39151⟩),
   ("Bourgogne-Franche-Comté", ⟨2807000, 47784⟩),
   ("Normandie", ⟨3330000, 29906⟩),
   ("Corse", ⟨351000, 8680⟩),
   ("Guadeloupe", ⟨376000, 1628⟩),
   ("Martinique", ⟨353000, 1128⟩),
   ("Guyane", ⟨294000, 83846⟩),
   ("La Réunion", ⟨859000, 2512⟩),
   ("Mayotte", ⟨310000, 376⟩)]

/-- `total_pop = sum(v["population"] for v in mapping.values())`. -/
def total_pop : ℤ := (mapping.map (fun e => e.2.population)).sum

/-- Python `round(x, n)` modelled over the rationals: round to the nearest
multiple of `10 ^ (-n)`. Mathlib `round` resolves ties upward where Python
floats resolve them to even; no value this program rounds is a tie, so the
two agree on every value that occurs. -/
def roundTo (n : ℕ) (x : ℚ) : ℚ := ((round (x * 10 ^ n) : ℤ) : ℚ) / 10 ^ n

/-- `props.get("properties", {}) or {}` seen from the feature: the property
bag when present, else an empty dict. -/
def pyProps (f : Feature) : Props := f.properties.getD []

/-- `props.get("nom") or props.get("name")`: the join key expression of
`enrich_regions_metadata`, with Python `or` falling through on a falsy
left operand. -/
def joinName (props : Props) : Option PVal :=
  match alookup props "nom" with
  | some v => if v.truthy then some v else alookup props "name"
  | none => alookup props "name"

/-- `mapping.get(name)`: only a string name can match the table (every key
of the table is a string); `if meta:` is equivalent to the lookup
succeeding since every table row is a non-empty dict. -/
def lookupMeta (name : Option PVal) : Option RegionMeta :=
  match name with
  | some (.s v) => alookup mapping v
  | _ => none

/-- The body of the per-feature loop of `enrich_regions_metadata`:
look the feature name up in the table; on a match set population, surface,
density (rounded to 1 decimal, None on zero surface) and, when the total
population is non-zero, the population share rounded to 2 decimals; in
every case write the property bag back onto the feature. -/
def enrichFeature (f : Feature) : Feature :=
  let props := pyProps f
  match lookupMeta (joinName props) with
  | none => ⟨some props⟩
  | some meta =>
      let pop : ℤ := meta.population
      let surf : ℚ := (meta.surface_km2 : ℚ)
      let dens : PVal :=
        if surf ≠ 0 then .q (roundTo 1 ((pop : ℚ) / surf)) else .null
      let p1 := aset props "population" (.i pop)
      let p2 := aset p1 "surface_km2" (.q surf)
      let p3 := aset p2 "densite_km2" dens
      let p4 :=
        if total_pop ≠ 0 then
          aset p3 "part_population_pct"
            (.q (roundTo 2 (100 * (pop : ℚ) / (total_pop : ℚ))))
        else p3
      ⟨some p4⟩

/-- `enrich_regions_metadata`: apply the loop body to every feature of the
collection (the Python function mutates in place; the model returns the
mutated collection). -/
def enrich_regions_metadata (g : GeoJsonDoc) : GeoJsonDoc :=
  ⟨g.features.map enrichFeature⟩

/-- The candidate URLs of the primary tier (geo.api.gouv.fr variants),
in source order. -/
def candidate_urls : List String :=
  ["https://geo.api.gouv.fr/regions?format=geojson&geometry=contour&projection=WGS84",
   "https://geo.api.gouv.fr/regions?format=geojson&geometry=contours&projection=WGS84",
   "https://geo.api.gouv.fr/regions?format=geojson&geometry=contour",
   "https://geo.api.gouv.fr/regions?format=geojson&geometry=contours",
   "https://geo.api.gouv.fr/regions?format=geojson",
   "https://geo.api.gouv.fr/regions?projection=WGS84&format=geojson"]

/-- The fallback-tier URLs, in source order. -/
def fallbacks : List String :=
  ["https://france-geojson.gregoiredavid.fr/repo/regions.geojson",
   "https://raw.githubusercontent.com/gregoiredavid/france-geojson/master/regions.geojson"]

/-- A JSON value, as `requests.Response.json()` returns it: the resolver
inspects dicts, the `features` array, and feature property dicts. -/
inductive JVal where
  | str (s : String)
  | num (q : ℚ)
  | jbool (b : Bool)
  | jnull
  | arr (elems : List JVal)
  | dict (entries : List (String × JVal))

/-- Python truthiness of a JSON value (`data.get("features")` used as a
condition): empty string, zero, False, None, empty list and empty dict are
falsy. -/
def JVal.truthy : JVal → Bool
  | .str s => s != ""
  | .num q => q != 0
  | .jbool b => b
  | .jnull => false
  | .arr l => !l.isEmpty
  | .dict l => !l.isEmpty

/-- `isinstance(data, dict) and data.get("features")`: the success test of
both resolver loops. -/
def isSuccessData (d : JVal) : Bool :=
  match d with
  | .dict entries =>
      match alookup entries "features" with
      | some v => v.truthy
      | none => false
  | _ => false

/-- The success notion as the specification words it: the body parses to a
dict whose `features` key holds a non-empty list. On well-formed feature
collections (see `wfData`) this coincides with `isSuccessData`. -/
def hasFeatureList (d : JVal) : Bool :=
  match d with
  | .dict entries =>
      match alookup entries "features" with
      | some (.arr l) => !l.isEmpty
      | _ => false
  | _ => false

/-- Well-formedness of a response body: if it is a dict, its `features`
key, when present, holds a list. Responses of the modelled endpoints are
GeoJSON feature collections, which always satisfy this. -/
def wfData (d : JVal) : Bool :=
  match d with
  | .dict entries =>
      match alookup entries "features" with
      | some (.arr _) => true
      | some _ => false
      | none => true
  | _ => true

/-- `feat.get("properties", {}) or {}` in the fallback normalization:
the entries of the property dict when present and truthy, else empty.
(A truthy non-dict value would raise in Python; such a value never occurs
in a well-formed feature collection and is mapped to the empty dict.) -/
def pyDictOr (v : Option JVal) : List (String × JVal) :=
  match v with
  | some (.dict p) => p
  | _ => []

/-- The per-feature normalization pass of the fallback tier: copy `name`
into a missing `nom`, and copy the first of `code_insee`, `code_region`,
`id` into a missing `code`; then write the property dict back.
(Modelled on dict-shaped features; Python raises on any other shape, which
a well-formed collection never contains.) -/
def normalizeFeat (feat : JVal) : JVal :=
  match feat with
  | .dict fentries =>
      let props0 := pyDictOr (alookup fentries "properties")
      let props1 :=
        match alookup props0 "nom", alookup props0 "name" with
        | none, some nv => aset props0 "nom" nv
        | _, _ => props0
      let props2 :=
        match alookup props1 "code" with
        | some _ => props1
        | none =>
            match alookup props1 "code_insee" with
            | some v => aset props1 "code" v
            | none =>
                match alookup props1 "code_region" with
                | some v => aset props1 "code" v
                | none =>
                    match alookup props1 "id" with
                    | some v => aset props1 "code" v
                    | none => props1
      .dict (aset fentries "properties" (.dict props2))
  | _ => feat

/-- The whole normalization loop of the fallback tier: normalize every
feature of the `features` list in place. (On a non-list `features` the
loop body would raise in Python; such a body never passes the success
test of a well-formed response.) -/
def normalizeData (data : JVal) : JVal :=
  match data with
  | .dict entries =>
      match alookup entries "features" with
      | some (.arr feats) =>
          .dict (aset entries "features" (.arr (feats.map normalizeFeat)))
      | _ => data
  | _ => data

/-- What one GET of a candidate URL yields: either a raised exception
(transport error, `raise_for_status` on a non-success status, or a JSON
decode error — all caught by the same `except` clause, carrying the
exception text), or a parsed JSON body. -/
inductive Outcome where
  | exn (detail : String)
  | ok (data : JVal)

/-- Whether an outcome passes the resolver's success test. -/
def isSuccessOutcome (o : Outcome) : Bool :=
  match o with
  | .exn _ => false
  | .ok d => isSuccessData d

/-- Whether an outcome succeeds in the words of the specification:
a body that is a dict with a non-empty `features` list. -/
def claimSuccess (o : Outcome) : Bool :=
  match o with
  | .exn _ => false
  | .ok d => hasFeatureList d

/-- Well-formedness of an outcome: any exception, or a well-formed body. -/
def wfOutcome (o : Outcome) : Bool :=
  match o with
  | .exn _ => true
  | .ok d => wfData d

/-- One tier of `fetch_regions_geojson`: walk the URL list in order; an
exception updates `last_err` and moves on; a body failing the success test
moves on without touching `last_err`; the first success returns the body
(normalized on the fallback tier). Returns the result, the final
`last_err`, and the list of URLs contacted, in order. -/
def runTier (oracle : String → Outcome) (normalize : Bool) :
    List String → Option String → Option JVal × Option String × List String
  | [], le => (none, le, [])
  | url :: rest, le =>
      match oracle url with
      | .exn d =>
          let r := runTier oracle normalize rest (some d)
          (r.1, r.2.1, url :: r.2.2)
      | .ok data =>
          if isSuccessData data then
            (some (if normalize then normalizeData data else data), le, [url])
          else
            let r := runTier oracle normalize rest le
            (r.1, r.2.1, url :: r.2.2)

/-- The `last_err` variable after a list of candidates has been processed
without an early return: the detail of the last exception seen, if any. -/
def lastErrFold (oracle : String → Outcome) (urls : List String)
    (le : Option String) : Option String :=
  urls.foldl (fun acc url =>
    match oracle url with
    | .exn d => some d
    | .ok _ => acc) le

/-- The fixed text of the exhaustion message, up to the interpolated
last error. -/
def exhaustMsgHead : String :=
  "Impossible de récupérer les régions (geo.api.gouv.fr et sources de secours indisponibles). Dernière erreur: "

/-- Python `str(last_err)` in the f-string: `str(None)` is `"None"`. -/
def strOfErr : Option String → String
  | some e => e
  | none => "None"

/-- The full `SystemExit` message on exhaustion. -/
def exhaustMsgOf (le : Option String) : String := exhaustMsgHead ++ strOfErr le

/-- `fetch_regions_geojson`, over an oracle giving each URL's outcome:
try the primary tier, then the fallback tier (threading `last_err`), and
raise `SystemExit` with the exhaustion message if both are exhausted.
Returns the result (`Except.error` models the raised `SystemExit`) and
the list of URLs contacted, in order. -/
def fetch_regions_geojson (oracle : String → Outcome) :
    Except String JVal × List String :=
  let t1 := runTier oracle false candidate_urls none
  match t1.1 with
  | some data => (Except.ok data, t1.2.2)
  | none =>
      let t2 := runTier oracle true fallbacks t1.2.1
      match t2.1 with
      | some data => (Except.ok data, t1.2.2 ++ t2.2.2)
      | none => (Except.error (exhaustMsgOf t2.2.1), t1.2.2 ++ t2.2.2)

/-- The exit status of the process: raising `SystemExit` with a string
message makes the interpreter print the message on stderr and exit with
status 1; a completed run exits 0. -/
def run_exit_status (oracle : String → Outcome) : ℕ :=
  match (fetch_regions_geojson oracle).1 with
  | Except.ok _ => 0
  | Except.error _ => 1

/-- The full candidate order: primary tier then fallback tier. -/
def all_urls : List String := candidate_urls ++ fallbacks

/-- `density_color` of `build_map`: `none` models an input on which
`float()` raises (missing or non-numeric density), `some d` a numeric
density. -/
def density_color : Option ℚ → String
  | none => "#2E6EEA"
  | some d =>
      if d < 50 then "#D4EEFF"
      else if d < 100 then "#9BD1FF"
      else if d < 150 then "#6FB2FF"
      else if d < 250 then "#3D7CFF"
      else if d < 500 then "#2E6EEA"
      else "#1F4DBF"

/-- The colors of the six density buckets, in threshold order. -/
def bucketColors : List String :=
  ["#D4EEFF", "#9BD1FF", "#6FB2FF", "#3D7CFF", "#2E6EEA", "#1F4DBF"]

/-- An uppercase hexadecimal digit. -/
def hexDigitChar (n : ℕ) : Char :=
  if n < 10 then Char.ofNat (48 + n) else Char.ofNat (55 + n)

/-- The UTF-8 bytes of a character, as natural numbers. -/
def utf8Bytes (c : Char) : List ℕ :=
  let n := c.toNat
  if n < 128 then [n]
  else if n < 2048 then [192 + n / 64, 128 + n % 64]
  else if n < 65536 then
    [224 + n / 4096, 128 + (n / 64) % 64, 128 + n % 64]
  else
    [240 + n / 262144, 128 + (n / 4096) % 64, 128 + (n / 64) % 64, 128 + n % 64]

/-- A percent-escaped byte, with uppercase hex digits. -/
def percentByte (b : ℕ) : String :=
  "%" ++ String.singleton (hexDigitChar (b / 16)) ++ String.singleton (hexDigitChar (b % 16))

/-- The characters `encodeURIComponent` leaves unescaped (ECMA-262):
ASCII alphanumerics and `- _ . ! ~ * ( )` and the apostrophe. -/
def isUnreservedURI (c : Char) : Bool :=
  c.isAlphanum ||
    c ∈ ['-', '_', '.', '!', '~', '*', Char.ofNat 39, '(', ')']

/-- The JavaScript builtin `encodeURIComponent`, modelled per ECMA-262:
unreserved characters pass through, every other character is UTF-8
encoded and percent-escaped byte by byte. -/
def encodeURIComponent (s : String) : String :=
  String.join (s.data.map fun c =>
    if isUnreservedURI c then String.singleton c
    else String.join ((utf8Bytes c).map percentByte))

/-- The click-target path the script emitted by `build_map` navigates to:
the JavaScript expression `"Régions/" + encodeURIComponent(nom) + ".HTML"`
evaluated on the feature's `nom` property (the handler is attached to
every feature with a truthy `nom`). -/
def click_target (nom : String) : String :=
  "Régions/" ++ encodeURIComponent nom ++ ".HTML"

/-- A feature named Bretagne, as fetched from the primary tier. -/
def bretFeat : Feature := ⟨some [("nom", PVal.s "Bretagne")]⟩

/-- A response body that is a dict whose feature list is empty: it fails
the success test without raising, so the resolver skips it silently. -/
def featurelessData : JVal := JVal.dict [("features", JVal.arr [])]

/-- An oracle where the first candidate fails with an exception and every
other candidate answers a featureless dict. -/
def oracleFeatureless : String → Outcome := fun url =>
  if url = "https://geo.api.gouv.fr/regions?format=geojson&geometry=contour&projection=WGS84"
  then Outcome.exn "boom" else Outcome.ok featurelessData

/-- A well-formed single-feature collection. -/
def goodData : JVal :=
  JVal.dict [("features",
    JVal.arr [JVal.dict [("properties", JVal.dict [("nom", JVal.str "Bretagne")])]])]

/-- An oracle where candidates 1 and 2 fail by transport error and
candidate 3 answers a valid feature collection. -/
def oracleThird : String → Outcome := fun url =>
  if url = "https://geo.api.gouv.fr/regions?format=geojson&geometry=contour&projection=WGS84"
      ∨ url = "https://geo.api.gouv.fr/regions?format=geojson&geometry=contours&projection=WGS84"
  then Outcome.exn "down"
  else if url = "https://geo.api.gouv.fr/regions?format=geojson&geometry=contour"
  then Outcome.ok goodData
  else Outcome.exn "unreachable"

theorem alookup_aset_same {α : Type} (l : List (String × α)) (k : String) (v : α) :
    alookup (aset l k v) k = some v := by
  induction l with
  | nil => simp [aset, alookup]
  | cons hd tl ih =>
      obtain ⟨k0, w⟩ := hd
      by_cases h : k0 = k
      · simp [aset, alookup, h]
      · simp [aset, alookup, h, ih]

theorem alookup_aset_ne {α : Type} (l : List (String × α)) (k k2 : String) (v : α)
    (h : k2 ≠ k) : alookup (aset l k v) k2 = alookup l k2 := by
  have hks : k ≠ k2 := Ne.symm h
  induction l with
  | nil => simp [aset, alookup, hks]
  | cons hd tl ih =>
      obtain ⟨k0, w⟩ := hd
      by_cases h0 : k0 = k
      · subst h0
        simp [aset, alookup, hks]
      · by_cases h1 : k0 = k2
        · subst h1
          simp [aset, alookup, h0]
        · simp [aset, alookup, h0, h1, ih]

theorem aset_of_alookup_eq {α : Type} (l : List (String × α)) (k : String) (v : α)
    (h : alookup l k = some v) : aset l k v = l := by
  induction l with
  | nil => simp [alookup] at h
  | cons hd tl ih =>
      obtain ⟨k0, w⟩ := hd
      by_cases h0 : k0 = k
      · subst h0
        simp [alookup] at h
        simp [aset, h]
      · simp [alookup, h0] at h
        simp [aset, h0, ih h]

/-- The chain of four property assignments performed on a matched feature
by `enrich_regions_metadata`, in source order. -/
def enrichChain (props : Props) (a b c d : PVal) : Props :=
  aset (aset (aset (aset props "population" a) "surface_km2" b) "densite_km2" c)
    "part_population_pct" d

theorem enrichChain_alookup_population (props : Props) (a b c d : PVal) :
    alookup (enrichChain props a b c d) "population" = some a := by
  unfold enrichChain
  rw [alookup_aset_ne _ _ _ _ (by decide), alookup_aset_ne _ _ _ _ (by decide),
    alookup_aset_ne _ _ _ _ (by decide), alookup_aset_same]

theorem enrichChain_alookup_surface (props : Props) (a b c d : PVal) :
    alookup (enrichChain props a b c d) "surface_km2" = some b := by
  unfold enrichChain
  rw [alookup_aset_ne _ _ _ _ (by decide), alookup_aset_ne _ _ _ _ (by decide),
    alookup_aset_same]

theorem enrichChain_alookup_densite (props : Props) (a b c d : PVal) :
    alookup (enrichChain props a b c d) "densite_km2" = some c := by
  unfold enrichChain
  rw [alookup_aset_ne _ _ _ _ (by decide), alookup_aset_same]

theorem enrichChain_alookup_part (props : Props) (a b c d : PVal) :
    alookup (enrichChain props a b c d) "part_population_pct" = some d := by
  unfold enrichChain
  rw [alookup_aset_same]

theorem enrichChain_alookup_other (props : Props) (a b c d : PVal) (k : String)
    (h1 : k ≠ "population") (h2 : k ≠ "surface_km2") (h3 : k ≠ "densite_km2")
    (h4 : k ≠ "part_population_pct") :
    alookup (enrichChain props a b c d) k = alookup props k := by
  unfold enrichChain
  rw [alookup_aset_ne _ _ _ _ h4, alookup_aset_ne _ _ _ _ h3,
    alookup_aset_ne _ _ _ _ h2, alookup_aset_ne _ _ _ _ h1]

theorem enrichChain_enrichChain (props : Props) (a b c d : PVal) :
    enrichChain (enrichChain props a b c d) a b c d = enrichChain props a b c d := by
  conv_lhs => rw [enrichChain]
  rw [aset_of_alookup_eq _ _ _ (enrichChain_alookup_population props a b c d)]
  rw [aset_of_alookup_eq _ _ _ (enrichChain_alookup_surface props a b c d)]
  rw [aset_of_alookup_eq _ _ _ (enrichChain_alookup_densite props a b c d)]
  rw [aset_of_alookup_eq _ _ _ (enrichChain_alookup_part props a b c d)]

theorem total_pop_ne_zero : total_pop ≠ 0 := by decide

/-- The matched branch of the loop body, written through `enrichChain`
(the population-share guard resolves because the fixed table total is
non-zero). -/
theorem enrichFeature_matched (f : Feature) (meta : RegionMeta)
    (hm : lookupMeta (joinName (pyProps f)) = some meta) :
    enrichFeature f =
      ⟨some (enrichChain (pyProps f) (PVal.i meta.population)
        (PVal.q (meta.surface_km2 : ℚ))
        (if (meta.surface_km2 : ℚ) ≠ 0 then
          PVal.q (roundTo 1 ((meta.population : ℚ) / (meta.surface_km2 : ℚ)))
         else PVal.null)
        (PVal.q (roundTo 2 (100 * (meta.population : ℚ) / (total_pop : ℚ)))))⟩ := by
  simp only [enrichFeature, enrichChain, hm, if_pos total_pop_ne_zero]

theorem enrichFeature_unmatched (f : Feature)
    (hm : lookupMeta (joinName (pyProps f)) = none) :
    enrichFeature f = ⟨some (pyProps f)⟩ := by
  simp only [enrichFeature, hm]

theorem enrichFeature_enrichFeature (f : Feature) :
    enrichFeature (enrichFeature f) = enrichFeature f := by
  cases hm : lookupMeta (joinName (pyProps f)) with
  | none =>
      have h1 := enrichFeature_unmatched f hm
      have h2 : pyProps (enrichFeature f) = pyProps f := by rw [h1]; rfl
      have hm2 : lookupMeta (joinName (pyProps (enrichFeature f))) = none := by
        rw [h2]; exact hm
      rw [enrichFeature_unmatched _ hm2, h2, h1]
  | some meta =>
      have h1 := enrichFeature_matched f meta hm
      have h2 : pyProps (enrichFeature f) =
          enrichChain (pyProps f) (PVal.i meta.population)
            (PVal.q (meta.surface_km2 : ℚ))
            (if (meta.surface_km2 : ℚ) ≠ 0 then
              PVal.q (roundTo 1 ((meta.population : ℚ) / (meta.surface_km2 : ℚ)))
             else PVal.null)
            (PVal.q (roundTo 2 (100 * (meta.population : ℚ) / (total_pop : ℚ)))) := by
        rw [h1]; rfl
      have hm2 : lookupMeta (joinName (pyProps (enrichFeature f))) = some meta := by
        rw [h2]
        unfold joinName
        rw [enrichChain_alookup_other _ _ _ _ _ _ (by decide) (by decide) (by decide)
            (by decide),
          enrichChain_alookup_other _ _ _ _ _ _ (by decide) (by decide) (by decide)
            (by decide)]
        exact hm
      rw [enrichFeature_matched _ meta hm2, h2, enrichChain_enrichChain, h1]

/-- C8: `enrich_regions_metadata` is idempotent — running the enricher a
second time on an already-enriched collection recomputes the same name,
finds the same table row, and overwrites every enrichment field with the
same value, so the collection is unchanged. -/
theorem enrich_idempotent (g : GeoJsonDoc) :
    enrich_regions_metadata (enrich_regions_metadata g) = enrich_regions_metadata g := by
  simp [enrich_regions_metadata, List.map_map, Function.comp_def,
    enrichFeature_enrichFeature]

theorem enrich_densite_value (f : Feature) (meta : RegionMeta)
    (hm : lookupMeta (joinName (pyProps f)) = some meta) :
    alookup (pyProps (enrichFeature f)) "densite_km2"
      = some (if (meta.surface_km2 : ℚ) ≠ 0 then
          PVal.q (roundTo 1 ((meta.population : ℚ) / (meta.surface_km2 : ℚ)))
        else PVal.null) := by
  have hc : pyProps (enrichFeature f) =
      enrichChain (pyProps f) (PVal.i meta.population)
        (PVal.q (meta.surface_km2 : ℚ))
        (if (meta.surface_km2 : ℚ) ≠ 0 then
          PVal.q (roundTo 1 ((meta.population : ℚ) / (meta.surface_km2 : ℚ)))
         else PVal.null)
        (PVal.q (roundTo 2 (100 * (meta.population : ℚ) / (total_pop : ℚ)))) := by
    rw [enrichFeature_matched f meta hm]; rfl
  rw [hc]
  exact enrichChain_alookup_densite _ _ _ _ _

/-- C1 (amended): for a feature whose join name matches a table row, the
enricher sets `population` and `surface_km2` from the table, sets
`densite_km2` to the quotient population/surface ROUNDED TO 1 DECIMAL
(None on a zero surface), and sets `part_population_pct` to
100·population/total rounded to 2 decimals. -/
theorem enrich_matched_sets_fields (f : Feature) (name : String) (meta : RegionMeta)
    (h1 : joinName (pyProps f) = some (PVal.s name))
    (h2 : alookup mapping name = some meta) :
    alookup (pyProps (enrichFeature f)) "population" = some (PVal.i meta.population)
  ∧ alookup (pyProps (enrichFeature f)) "surface_km2"
      = some (PVal.q (meta.surface_km2 : ℚ))
  ∧ alookup (pyProps (enrichFeature f)) "densite_km2"
      = some (if (meta.surface_km2 : ℚ) ≠ 0 then
                PVal.q (roundTo 1 ((meta.population : ℚ) / (meta.surface_km2 : ℚ)))
              else PVal.null)
  ∧ alookup (pyProps (enrichFeature f)) "part_population_pct"
      = some (PVal.q (roundTo 2 (100 * (meta.population : ℚ) / (total_pop : ℚ)))) := by
  have hm : lookupMeta (joinName (pyProps f)) = some meta := by
    rw [h1]; exact h2
  have hc : pyProps (enrichFeature f) =
      enrichChain (pyProps f) (PVal.i meta.population)
        (PVal.q (meta.surface_km2 : ℚ))
        (if (meta.surface_km2 : ℚ) ≠ 0 then
          PVal.q (roundTo 1 ((meta.population : ℚ) / (meta.surface_km2 : ℚ)))
         else PVal.null)
        (PVal.q (roundTo 2 (100 * (meta.population : ℚ) / (total_pop : ℚ)))) := by
    rw [enrichFeature_matched f meta hm]; rfl
  rw [hc]
  exact ⟨enrichChain_alookup_population _ _ _ _ _,
    enrichChain_alookup_surface _ _ _ _ _,
    enrichChain_alookup_densite _ _ _ _ _,
    enrichChain_alookup_part _ _ _ _ _⟩

theorem enrich_matched_sets_fields_witness :
    alookup (pyProps (enrichFeature bretFeat)) "population" = some (PVal.i 3420000)
  ∧ alookup (pyProps (enrichFeature bretFeat)) "surface_km2" = some (PVal.q 27208)
  ∧ alookup (pyProps (enrichFeature bretFeat)) "densite_km2"
      = some (PVal.q (1257 / 10))
  ∧ alookup (pyProps (enrichFeature bretFeat)) "part_population_pct"
      = some (PVal.q (253 / 50)) := by
  have h := enrich_matched_sets_fields bretFeat "Bretagne" ⟨3420000, 27208⟩
    (by decide) (by decide)
  have ht : total_pop = 67631065 := by decide
  refine ⟨h.1, by rw [h.2.1]; norm_num, ?_, ?_⟩
  · rw [h.2.2.1]
    norm_num [roundTo, round_eq]
  · rw [h.2.2.2, ht]
    norm_num [roundTo, round_eq]

/-- C1 counterexample: the stored density of Bretagne is 125.7, the
quotient rounded to 1 decimal, which is NOT equal to the exact quotient
3420000/27208 the claim states. -/
theorem enrich_density_not_exact_quotient :
    alookup (pyProps (enrichFeature bretFeat)) "densite_km2"
        = some (PVal.q (1257 / 10))
  ∧ (1257 / 10 : ℚ) ≠ (3420000 : ℚ) / 27208 := by
  constructor
  · rw [enrich_densite_value bretFeat ⟨3420000, 27208⟩ (by decide)]
    norm_num [roundTo, round_eq]
  · norm_num

/-- C7: a feature whose join name has no table row keeps its property bag
unchanged — the output bag equals the input bag verbatim (so no
enrichment field is added and nothing is zero-filled), and the feature
itself is unchanged whenever it carries a property bag at all. -/
theorem enrich_unmatched_unchanged (g : GeoJsonDoc) (i : ℕ) (f : Feature)
    (hf : g.features.get? i = some f)
    (hun : lookupMeta (joinName (pyProps f)) = none) :
    (enrich_regions_metadata g).features.get? i = some (enrichFeature f)
  ∧ (enrichFeature f).properties = some (pyProps f)
  ∧ (∀ ps, f.properties = some ps → enrichFeature f = f)
  ∧ (∀ k, alookup (pyProps (enrichFeature f)) k = alookup (pyProps f) k) := by
  refine ⟨?_, ?_, ?_, ?_⟩
  · have hfe : (enrich_regions_metadata g).features = g.features.map enrichFeature := rfl
    rw [hfe, List.get?_map, hf]
    rfl
  · rw [enrichFeature_unmatched f hun]
  · intro ps hps
    rw [enrichFeature_unmatched f hun]
    cases f with
    | mk p =>
        simp only at hps
        rw [hps]
        rfl
  · intro k
    rw [enrichFeature_unmatched f hun]
    rfl

theorem enrich_unmatched_unchanged_witness :
    (enrich_regions_metadata ⟨[⟨some [("nom", PVal.s "Unknown Land")]⟩]⟩).features.get? 0
        = some (⟨some [("nom", PVal.s "Unknown Land")]⟩ : Feature)
  ∧ alookup (pyProps (enrichFeature ⟨some [("nom", PVal.s "Unknown Land")]⟩))
        "population" = none := by
  have h := enrich_unmatched_unchanged ⟨[⟨some [("nom", PVal.s "Unknown Land")]⟩]⟩ 0
    ⟨some [("nom", PVal.s "Unknown Land")]⟩ (by decide) (by decide)
  constructor
  · rw [h.1, h.2.2.1 [("nom", PVal.s "Unknown Land")] rfl]
  · rw [h.2.2.2 "population"]; decide

/-- C10: the join key is the `nom` property when present and truthy (for a
string: non-empty), otherwise the `name` property; hence a feature
carrying only `name` still matches the table, and a feature whose `nom`
is the empty string is joined via `name`. -/
theorem join_key_nom_fallback_name :
    (∀ (props : Props) (v : String),
        alookup props "nom" = some (PVal.s v) → v ≠ "" →
        joinName props = some (PVal.s v))
  ∧ (∀ props : Props, alookup props "nom" = some (PVal.s "") →
        joinName props = alookup props "name")
  ∧ (∀ props : Props, alookup props "nom" = none →
        joinName props = alookup props "name")
  ∧ (∀ (props : Props) (name : String) (meta : RegionMeta),
        alookup props "nom" = none → alookup props "name" = some (PVal.s name) →
        alookup mapping name = some meta →
        alookup (pyProps (enrichFeature ⟨some props⟩)) "population"
          = some (PVal.i meta.population)) := by
  refine ⟨?_, ?_, ?_, ?_⟩
  · intro props v h hv
    unfold joinName
    rw [h]
    simp [PVal.truthy, hv]
  · intro props h
    unfold joinName
    rw [h]
    simp [PVal.truthy]
  · intro props h
    unfold joinName
    rw [h]
  · intro props name meta hn hname hmap
    have hj : joinName props = some (PVal.s name) := by
      unfold joinName
      rw [hn]
      exact hname
    have hm : lookupMeta (joinName (pyProps (⟨some props⟩ : Feature))) = some meta := by
      show lookupMeta (joinName props) = some meta
      rw [hj]; exact hmap
    have hc := enrichFeature_matched ⟨some props⟩ meta hm
    have h4 : pyProps (enrichFeature ⟨some props⟩) =
        enrichChain (pyProps (⟨some props⟩ : Feature)) (PVal.i meta.population)
          (PVal.q (meta.surface_km2 : ℚ))
          (if (meta.surface_km2 : ℚ) ≠ 0 then
            PVal.q (roundTo 1 ((meta.population : ℚ) / (meta.surface_km2 : ℚ)))
           else PVal.null)
          (PVal.q (roundTo 2 (100 * (meta.population : ℚ) / (total_pop : ℚ)))) := by
      rw [hc]; rfl
    rw [h4]
    exact enrichChain_alookup_population _ _ _ _ _

theorem join_key_nom_fallback_name_witness :
    joinName [("nom", PVal.s ""), ("name", PVal.s "Bretagne")]
        = some (PVal.s "Bretagne")
  ∧ alookup (pyProps (enrichFeature ⟨some [("name", PVal.s "Bretagne")]⟩))
        "population" = some (PVal.i 3420000) := by
  constructor
  · rw [join_key_nom_fallback_name.2.1 [("nom", PVal.s ""), ("name", PVal.s "Bretagne")]
      (by decide)]
    decide
  · exact join_key_nom_fallback_name.2.2.2 [("name", PVal.s "Bretagne")] "Bretagne"
      ⟨3420000, 27208⟩ (by decide) (by decide) (by decide)

/-- C2: the color buckets of `density_color` have inclusive-lower,
exclusive-upper boundaries at 50, 100, 150, 250 and 500; in particular
49.999 and 50 fall in different buckets, 50 and 99.999 in the same one,
and a density of exactly 50 takes the second bucket's color. -/
theorem density_color_boundaries :
    (∀ d : ℚ, 0 ≤ d → d < 50 → density_color (some d) = "#D4EEFF")
  ∧ (∀ d : ℚ, 50 ≤ d → d < 100 → density_color (some d) = "#9BD1FF")
  ∧ (∀ d : ℚ, 100 ≤ d → d < 150 → density_color (some d) = "#6FB2FF")
  ∧ (∀ d : ℚ, 150 ≤ d → d < 250 → density_color (some d) = "#3D7CFF")
  ∧ (∀ d : ℚ, 250 ≤ d → d < 500 → density_color (some d) = "#2E6EEA")
  ∧ (∀ d : ℚ, 500 ≤ d → density_color (some d) = "#1F4DBF")
  ∧ density_color (some (49999 / 1000)) ≠ density_color (some 50)
  ∧ density_color (some 50) = density_color (some (99999 / 1000))
  ∧ density_color (some 50) = "#9BD1FF" := by
  have e1 : density_color (some (49999 / 1000)) = "#D4EEFF" := by
    norm_num [density_color]
  have e2 : density_color (some 50) = "#9BD1FF" := by
    norm_num [density_color]
  have e3 : density_color (some (99999 / 1000)) = "#9BD1FF" := by
    norm_num [density_color]
  refine ⟨?_, ?_, ?_, ?_, ?_, ?_, ?_, ?_, ?_⟩
  · intro d h0 h1
    simp only [density_color]
    rw [if_pos h1]
  · intro d h1 h2
    simp only [density_color]
    rw [if_neg (by linarith), if_pos h2]
  · intro d h1 h2
    simp only [density_color]
    rw [if_neg (by linarith), if_neg (by linarith), if_pos h2]
  · intro d h1 h2
    simp only [density_color]
    rw [if_neg (by linarith), if_neg (by linarith), if_neg (by linarith), if_pos h2]
  · intro d h1 h2
    simp only [density_color]
    rw [if_neg (by linarith), if_neg (by linarith), if_neg (by linarith),
      if_neg (by linarith), if_pos h2]
  · intro d h1
    simp only [density_color]
    rw [if_neg (by linarith), if_neg (by linarith), if_neg (by linarith),
      if_neg (by linarith), if_neg (by linarith)]
  · rw [e1, e2]; decide
  · rw [e2, e3]
  · exact e2

theorem density_color_boundaries_witness :
    density_color (some 75) = "#9BD1FF" ∧ density_color (some 500) = "#1F4DBF" :=
  ⟨density_color_boundaries.2.1 75 (by norm_num) (by norm_num),
   density_color_boundaries.2.2.2.2.2.1 500 (by norm_num)⟩

/-- C3 counterexample: the default color returned for a missing or
non-numeric density is `#2E6EEA`, the very color of the 250–500 bucket —
it is not a seventh color distinct from the six bucket colors. -/
theorem density_color_default_collides :
    density_color none = "#2E6EEA" ∧ density_color (some 300) = "#2E6EEA" := by
  constructor
  · rfl
  · norm_num [density_color]

/-- C3 (amended): the six density buckets are mapped to six pairwise
distinct colors, and a missing/non-numeric density maps to a default
color that COINCIDES with the 250–500 bucket color; hence for every
density the function returns exactly one of SIX colors. -/
theorem density_color_six_colors :
    bucketColors.Nodup
  ∧ (∀ x : Option ℚ, density_color x ∈ bucketColors)
  ∧ density_color none = "#2E6EEA" := by
  refine ⟨by decide, ?_, rfl⟩
  intro x
  cases x with
  | none => simp [density_color, bucketColors]
  | some d =>
      simp only [density_color]
      split_ifs <;> simp [bucketColors]

/-- C9: the click-target path emitted by `build_map` for a feature is the
fixed folder prefix, the percent-encoded feature name, and the fixed
suffix `.HTML`; for Île-de-France it is exactly
`Régions/%C3%8Ele-de-France.HTML`. -/
theorem click_target_encoding :
    (∀ nom : String,
        click_target nom = "Régions/" ++ encodeURIComponent nom ++ ".HTML")
  ∧ click_target "Île-de-France" = "Régions/%C3%8Ele-de-France.HTML" := by
  refine ⟨fun nom => rfl, ?_⟩
  decide

theorem runTier_cons_exn (oracle : String → Outcome) (nrm : Bool) (url : String)
    (rest : List String) (le : Option String) (d : String)
    (h : oracle url = Outcome.exn d) :
    runTier oracle nrm (url :: rest) le =
      ((runTier oracle nrm rest (some d)).1,
       (runTier oracle nrm rest (some d)).2.1,
       url :: (runTier oracle nrm rest (some d)).2.2) := by
  simp [runTier, h]

theorem runTier_cons_okfail (oracle : String → Outcome) (nrm : Bool) (url : String)
    (rest : List String) (le : Option String) (data : JVal)
    (h : oracle url = Outcome.ok data) (hs : isSuccessData data = false) :
    runTier oracle nrm (url :: rest) le =
      ((runTier oracle nrm rest le).1,
       (runTier oracle nrm rest le).2.1,
       url :: (runTier oracle nrm rest le).2.2) := by
  simp [runTier, h, hs]

theorem runTier_cons_success (oracle : String → Outcome) (nrm : Bool) (url : String)
    (rest : List String) (le : Option String) (data : JVal)
    (h : oracle url = Outcome.ok data) (hs : isSuccessData data = true) :
    runTier oracle nrm (url :: rest) le =
      (some (if nrm then normalizeData data else data), le, [url]) := by
  simp [runTier, h, hs]

theorem runTier_all_fail (oracle : String → Outcome) (nrm : Bool) :
    ∀ (urls : List String) (le : Option String),
      (∀ u ∈ urls, isSuccessOutcome (oracle u) = false) →
      runTier oracle nrm urls le = (none, lastErrFold oracle urls le, urls) := by
  intro urls
  induction urls with
  | nil => intro le h; rfl
  | cons url rest ih =>
      intro le h
      have hu : isSuccessOutcome (oracle url) = false :=
        h url (List.mem_cons_self url rest)
      have hr : ∀ u ∈ rest, isSuccessOutcome (oracle u) = false :=
        fun u hu2 => h u (List.mem_cons_of_mem url hu2)
      cases ho : oracle url with
      | exn d =>
          rw [runTier_cons_exn oracle nrm url rest le d ho, ih (some d) hr]
          simp [lastErrFold, ho]
      | ok data =>
          have hs : isSuccessData data = false := by rw [ho] at hu; exact hu
          rw [runTier_cons_okfail oracle nrm url rest le data ho hs, ih le hr]
          simp [lastErrFold, ho]

theorem runTier_append_fail (oracle : String → Outcome) (nrm : Bool) :
    ∀ (l1 l2 : List String) (le : Option String),
      (∀ u ∈ l1, isSuccessOutcome (oracle u) = false) →
      runTier oracle nrm (l1 ++ l2) le =
        ((runTier oracle nrm l2 (lastErrFold oracle l1 le)).1,
         (runTier oracle nrm l2 (lastErrFold oracle l1 le)).2.1,
         l1 ++ (runTier oracle nrm l2 (lastErrFold oracle l1 le)).2.2) := by
  intro l1
  induction l1 with
  | nil => intro l2 le h; rfl
  | cons url l1 ih =>
      intro l2 le h
      have hu : isSuccessOutcome (oracle url) = false :=
        h url (List.mem_cons_self url l1)
      have hr : ∀ u ∈ l1, isSuccessOutcome (oracle u) = false :=
        fun u hu2 => h u (List.mem_cons_of_mem url hu2)
      cases ho : oracle url with
      | exn d =>
          rw [show (url :: l1) ++ l2 = url :: (l1 ++ l2) from rfl,
            runTier_cons_exn oracle nrm url (l1 ++ l2) le d ho, ih l2 (some d) hr]
          simp [lastErrFold, ho]
      | ok data =>
          have hs : isSuccessData data = false := by rw [ho] at hu; exact hu
          rw [show (url :: l1) ++ l2 = url :: (l1 ++ l2) from rfl,
            runTier_cons_okfail oracle nrm url (l1 ++ l2) le data ho hs, ih l2 le hr]
          simp [lastErrFold, ho]

theorem runTier_trace_take (oracle : String → Outcome) (nrm : Bool) :
    ∀ (urls : List String) (le : Option String),
      ∃ k, (runTier oracle nrm urls le).2.2 = urls.take k := by
  intro urls
  induction urls with
  | nil => intro le; exact ⟨0, rfl⟩
  | cons url rest ih =>
      intro le
      cases ho : oracle url with
      | exn d =>
          obtain ⟨k, hk⟩ := ih (some d)
          refine ⟨k + 1, ?_⟩
          rw [runTier_cons_exn oracle nrm url rest le d ho]
          simp [hk]
      | ok data =>
          cases hs : isSuccessData data with
          | false =>
              obtain ⟨k, hk⟩ := ih le
              refine ⟨k + 1, ?_⟩
              rw [runTier_cons_okfail oracle nrm url rest le data ho hs]
              simp [hk]
          | true =>
              refine ⟨1, ?_⟩
              rw [runTier_cons_success oracle nrm url rest le data ho hs]
              simp

theorem fetch_trace_nodup (oracle : String → Outcome) :
    (fetch_regions_geojson oracle).2.Nodup := by
  obtain ⟨k1, hk1⟩ := runTier_trace_take oracle false candidate_urls none
  obtain ⟨k2, hk2⟩ := runTier_trace_take oracle true fallbacks
    ((runTier oracle false candidate_urls none).2.1)
  have hnd : all_urls.Nodup := by decide
  have hs1 : List.Sublist (candidate_urls.take k1) candidate_urls :=
    List.take_sublist k1 candidate_urls
  have hs2 : List.Sublist (fallbacks.take k2) fallbacks :=
    List.take_sublist k2 fallbacks
  simp only [fetch_regions_geojson]
  cases hr1 : (runTier oracle false candidate_urls none).1 with
  | some data =>
      simp only [hr1]
      rw [hk1]
      have hnp : candidate_urls.Nodup := by decide
      exact List.Nodup.sublist hs1 hnp
  | none =>
      simp only [hr1]
      cases hr2 : (runTier oracle true fallbacks
          ((runTier oracle false candidate_urls none).2.1)).1 with
      | some data =>
          simp only [hr2]
          rw [hk1, hk2]
          exact List.Nodup.sublist (List.Sublist.append hs1 hs2) hnd
      | none =>
          simp only [hr2]
          rw [hk1, hk2]
          exact List.Nodup.sublist (List.Sublist.append hs1 hs2) hnd

/-- C4: when every candidate URL of both tiers fails the success test,
`fetch_regions_geojson` raises `SystemExit` (modelled by `Except.error`,
and by exit status 1) with the exhaustion message, which carries the
last-seen per-candidate error detail. -/
theorem fetch_exhaustion_fatal (oracle : String → Outcome)
    (h : ∀ u ∈ all_urls, isSuccessOutcome (oracle u) = false) :
    (fetch_regions_geojson oracle).1 =
        Except.error (exhaustMsgOf (lastErrFold oracle all_urls none))
  ∧ run_exit_status oracle = 1
  ∧ (∀ d, lastErrFold oracle all_urls none = some d →
      (fetch_regions_geojson oracle).1 = Except.error (exhaustMsgHead ++ d)) := by
  have hp : ∀ u ∈ candidate_urls, isSuccessOutcome (oracle u) = false :=
    fun u hu => h u (by simp [all_urls, hu])
  have hf : ∀ u ∈ fallbacks, isSuccessOutcome (oracle u) = false :=
    fun u hu => h u (by simp [all_urls, hu])
  have e1 := runTier_all_fail oracle false candidate_urls none hp
  have e2 := runTier_all_fail oracle true fallbacks
    (lastErrFold oracle candidate_urls none) hf
  have hfold : lastErrFold oracle fallbacks (lastErrFold oracle candidate_urls none)
      = lastErrFold oracle all_urls none := by
    simp [lastErrFold, all_urls, List.foldl_append]
  have hres : (fetch_regions_geojson oracle).1 =
      Except.error (exhaustMsgOf (lastErrFold oracle all_urls none)) := by
    simp only [fetch_regions_geojson, e1, e2, hfold]
  refine ⟨hres, ?_, ?_⟩
  · unfold run_exit_status
    rw [hres]
  · intro d hd
    rw [hres, hd]
    rfl

theorem fetch_exhaustion_fatal_witness :
    (fetch_regions_geojson (fun _ => Outcome.exn "boom")).1 =
        Except.error (exhaustMsgHead ++ "boom")
  ∧ run_exit_status (fun _ => Outcome.exn "boom") = 1 := by
  have h := fetch_exhaustion_fatal (fun _ => Outcome.exn "boom") (fun u _ => rfl)
  exact ⟨h.2.2 "boom" rfl, h.2.1⟩

/-- C5 (amended): a candidate failing by a raised exception — transport
error, non-success status or non-JSON body — records its error detail as
the new `last_err` and the resolver proceeds to the next candidate; a
candidate whose JSON body merely lacks a non-empty feature list is skipped
WITHOUT recording any error (`last_err` is left as it was); and no
candidate is ever contacted twice. -/
theorem fetch_error_recording (oracle : String → Outcome) :
    (∀ (nrm : Bool) (url : String) (rest : List String) (le : Option String)
        (d : String),
        oracle url = Outcome.exn d →
        runTier oracle nrm (url :: rest) le =
          ((runTier oracle nrm rest (some d)).1,
           (runTier oracle nrm rest (some d)).2.1,
           url :: (runTier oracle nrm rest (some d)).2.2))
  ∧ (∀ (nrm : Bool) (url : String) (rest : List String) (le : Option String)
        (data : JVal),
        oracle url = Outcome.ok data → isSuccessData data = false →
        runTier oracle nrm (url :: rest) le =
          ((runTier oracle nrm rest le).1,
           (runTier oracle nrm rest le).2.1,
           url :: (runTier oracle nrm rest le).2.2))
  ∧ (fetch_regions_geojson oracle).2.Nodup := by
  refine ⟨?_, ?_, fetch_trace_nodup oracle⟩
  · intro nrm url rest le d hd
    exact runTier_cons_exn oracle nrm url rest le d hd
  · intro nrm url rest le data hd hs
    exact runTier_cons_okfail oracle nrm url rest le data hd hs

theorem fetch_error_recording_witness :
    runTier oracleFeatureless false
        ["https://geo.api.gouv.fr/regions?format=geojson&geometry=contour&projection=WGS84"]
        none
      = (none, some "boom",
         ["https://geo.api.gouv.fr/regions?format=geojson&geometry=contour&projection=WGS84"]) := by
  have h := (fetch_error_recording oracleFeatureless).1 false
    "https://geo.api.gouv.fr/regions?format=geojson&geometry=contour&projection=WGS84"
    [] none "boom" rfl
  rw [h]
  rfl

/-- C5 counterexample: the first candidate fails with exception detail
`boom` and all seven later candidates answer a dict whose feature list is
empty; the exhaustion message still carries `boom` — the featureless
bodies recorded no error at all, so their failures never became the
last-seen error detail as the claim states. -/
theorem fetch_featureless_not_recorded :
    (fetch_regions_geojson oracleFeatureless).1
        = Except.error (exhaustMsgHead ++ "boom")
  ∧ oracleFeatureless
        "https://raw.githubusercontent.com/gregoiredavid/france-geojson/master/regions.geojson"
      = Outcome.ok featurelessData :=
  ⟨rfl, rfl⟩

theorem wf_code_claim (o : Outcome) (h : wfOutcome o = true) :
    isSuccessOutcome o = claimSuccess o := by
  cases o with
  | exn d => rfl
  | ok d =>
      show isSuccessData d = hasFeatureList d
      cases d with
      | str s => rfl
      | num q => rfl
      | jbool b => rfl
      | jnull => rfl
      | arr l => rfl
      | dict entries =>
          have h2 : wfData (JVal.dict entries) = true := h
          cases hl : alookup entries "features" with
          | none => simp [isSuccessData, hasFeatureList, hl]
          | some v =>
              cases v with
              | arr l => simp [isSuccessData, hasFeatureList, JVal.truthy, hl]
              | str s => simp [wfData, hl] at h2
              | num q => simp [wfData, hl] at h2
              | jbool b => simp [wfData, hl] at h2
              | jnull => simp [wfData, hl] at h2
              | dict entries2 => simp [wfData, hl] at h2

/-- C6: over well-formed responses, `fetch_regions_geojson` returns the
body of the first candidate — primary tier in its fixed order, then
fallback tier — whose body parses to a dict with a non-empty `features`
list (the body is returned after the normalization pass when it came from
the fallback tier), and exactly the candidates up to and including the
successful one are contacted: later candidates are never contacted. -/
theorem fetch_first_success_short_circuit (oracle : String → Outcome)
    (hwf : ∀ url : String, wfOutcome (oracle url) = true) :
    (∀ (l1 rest : List String) (u : String) (data : JVal),
        candidate_urls = l1 ++ u :: rest →
        (∀ x ∈ l1, claimSuccess (oracle x) = false) →
        oracle u = Outcome.ok data → hasFeatureList data = true →
        (fetch_regions_geojson oracle).1 = Except.ok data
          ∧ (fetch_regions_geojson oracle).2 = l1 ++ [u])
  ∧ (∀ (l1 rest : List String) (u : String) (data : JVal),
        fallbacks = l1 ++ u :: rest →
        (∀ x ∈ candidate_urls, claimSuccess (oracle x) = false) →
        (∀ x ∈ l1, claimSuccess (oracle x) = false) →
        oracle u = Outcome.ok data → hasFeatureList data = true →
        (fetch_regions_geojson oracle).1 = Except.ok (normalizeData data)
          ∧ (fetch_regions_geojson oracle).2 = candidate_urls ++ (l1 ++ [u])) := by
  constructor
  · intro l1 rest u data hsplit hfail hok hfl
    have hcf : ∀ x ∈ l1, isSuccessOutcome (oracle x) = false := fun x hx => by
      rw [wf_code_claim (oracle x) (hwf x)]
      exact hfail x hx
    have hds : isSuccessData data = true := by
      have h3 := wf_code_claim (oracle u) (hwf u)
      rw [hok] at h3
      rw [show isSuccessData data = hasFeatureList data from h3, hfl]
    have e1 : runTier oracle false candidate_urls none =
        (some data, lastErrFold oracle l1 none, l1 ++ [u]) := by
      rw [hsplit, runTier_append_fail oracle false l1 (u :: rest) none hcf,
        runTier_cons_success oracle false u rest (lastErrFold oracle l1 none)
          data hok hds]
      rfl
    exact ⟨by simp only [fetch_regions_geojson, e1],
      by simp only [fetch_regions_geojson, e1]⟩
  · intro l1 rest u data hsplit hpfail hfail hok hfl
    have hpf : ∀ x ∈ candidate_urls, isSuccessOutcome (oracle x) = false :=
      fun x hx => by
        rw [wf_code_claim (oracle x) (hwf x)]
        exact hpfail x hx
    have hcf : ∀ x ∈ l1, isSuccessOutcome (oracle x) = false := fun x hx => by
      rw [wf_code_claim (oracle x) (hwf x)]
      exact hfail x hx
    have hds : isSuccessData data = true := by
      have h3 := wf_code_claim (oracle u) (hwf u)
      rw [hok] at h3
      rw [show isSuccessData data = hasFeatureList data from h3, hfl]
    have e1 := runTier_all_fail oracle false candidate_urls none hpf
    have e2 : runTier oracle true fallbacks (lastErrFold oracle candidate_urls none) =
        (some (normalizeData data),
         lastErrFold oracle l1 (lastErrFold oracle candidate_urls none),
         l1 ++ [u]) := by
      rw [hsplit, runTier_append_fail oracle true l1 (u :: rest)
          (lastErrFold oracle candidate_urls none) hcf,
        runTier_cons_success oracle true u rest
          (lastErrFold oracle l1 (lastErrFold oracle candidate_urls none))
          data hok hds]
      rfl
    exact ⟨by simp only [fetch_regions_geojson, e1, e2],
      by simp only [fetch_regions_geojson, e1, e2]⟩

theorem fetch_first_success_short_circuit_witness :
    (fetch_regions_geojson oracleThird).1 = Except.ok goodData
  ∧ (fetch_regions_geojson oracleThird).2 =
      ["https://geo.api.gouv.fr/regions?format=geojson&geometry=contour&projection=WGS84",
       "https://geo.api.gouv.fr/regions?format=geojson&geometry=contours&projection=WGS84",
       "https://geo.api.gouv.fr/regions?format=geojson&geometry=contour"] := by
  have hwf : ∀ url : String, wfOutcome (oracleThird url) = true := by
    intro url
    unfold oracleThird
    split_ifs <;> rfl
  have h := (fetch_first_success_short_circuit oracleThird hwf).1
    ["https://geo.api.gouv.fr/regions?format=geojson&geometry=contour&projection=WGS84",
     "https://geo.api.gouv.fr/regions?format=geojson&geometry=contours&projection=WGS84"]
    ["https://geo.api.gouv.fr/regions?format=geojson&geometry=contours",
     "https://geo.api.gouv.fr/regions?format=geojson",
     "https://geo.api.gouv.fr/regions?projection=WGS84&format=geojson"]
    "https://geo.api.gouv.fr/regions?format=geojson&geometry=contour"
    goodData rfl (by decide) rfl rfl
  exact ⟨h.1, by rw [h.2]; rfl⟩
